import Mathlib

/-
  Verification of the sk-dashboard data-loading, caching, refresh and
  filtering logic (src/dashboard.py) against its design specification.

  The Python source is shallowly embedded below:
  * `load_data` embeds the function at dashboard.py lines 27-55;
    the remote interaction (gspread client, sheet fetch) is abstracted
    as a `FetchOutcome` argument describing what the remote call did.
  * the `@st.cache_data(ttl=60)` decorator (line 26) is embedded as
    `cachedLoad` over an explicit `CacheState`: streamlit memoizes the
    returned value (whatever it is) with a timestamp, serves it while its
    age is below the TTL, and caches nothing when the function raises.
  * the refresh-button / auto-refresh logic (lines 78-92) is `refreshStep`.
  * the date filter (line 107) is `dateFilter`; the keyword filter
    (line 133) is `keywordFilterR`, which compiles the keyword as a
    regular expression (the pandas `str.contains` default) over a
    documented fragment of the Python pattern language, with an error
    outcome for bad patterns; the report text (lines 142-145) is
    `summaryText`, and `renderCycleR` sequences these as the script does.
-/

namespace SkDashboard

/-- A calendar date as produced by the date-column conversion. -/
structure Date where
  year : Nat
  month : Nat
  day : Nat
deriving DecidableEq, Repr

/-- Chronological order on dates: year, then month, then day. -/
def dateLe (a b : Date) : Bool :=
  Nat.blt a.year b.year ||
    (a.year == b.year && (Nat.blt a.month b.month ||
      (a.month == b.month && Nat.ble a.day b.day)))

/-- One raw row of the fetched sheet, as returned by `get_all_records()`:
the date cell is still an unparsed string. -/
structure RawRow where
  date : String
  title : String
  summary : String
  link : String
deriving DecidableEq, Repr

/-- The raw fetched table: whether the date column (날짜) is among the
columns, and the rows in sheet order. -/
structure RawTable where
  hasDateCol : Bool
  rows : List RawRow
deriving DecidableEq, Repr

/-- One parsed row of the dashboard table. -/
structure Record where
  date : Date
  title : String
  summary : String
  link : String
deriving DecidableEq, Repr

/-- A parsed table: ordered rows, source row order preserved. -/
abbrev Table := List Record

/-- What the remote interaction did, abstracting the gspread client:
the credential setup can raise (it runs before the try-block), the sheet
open can raise SpreadsheetNotFound, any other exception is generic, or
the fetch returns the raw records. -/
inductive FetchOutcome where
  | authError (e : String)
  | spreadsheetNotFound
  | otherError (e : String)
  | records (raw : RawTable)
deriving DecidableEq, Repr

def isDigitCh (c : Char) : Bool := ('0' : Char) ≤ c && c ≤ ('9' : Char)

def digitVal (c : Char) : Nat := c.toNat - ('0' : Char).toNat

/-- Read a nonempty all-digit character list as a number. -/
def readNat (cs : List Char) : Option Nat :=
  if cs.isEmpty then none
  else if cs.all isDigitCh then
    some (cs.foldl (fun a c => 10 * a + digitVal c) 0)
  else none

/-- Split a character list on the dash separator. -/
def splitOnDash : List Char → List (List Char)
  | [] => [[]]
  | c :: cs =>
    match splitOnDash cs with
    | [] => if c = ('-' : Char) then [[], []] else [[c]]
    | p :: ps => if c = ('-' : Char) then [] :: p :: ps else (c :: p) :: ps

/-- Model of the date-cell conversion done by `pd.to_datetime` on one
value: an ISO `YYYY-MM-DD` string parses, anything else fails. -/
def parseDate (s : String) : Option Date :=
  match splitOnDash s.toList with
  | [ys, ms, ds] =>
    match readNat ys, readNat ms, readNat ds with
    | some y, some m, some d =>
      if 1 ≤ m && m ≤ 12 && 1 ≤ d && d ≤ 31 then some ⟨y, m, d⟩ else none
    | _, _, _ => none
  | _ => none

/-- Parse one raw row into a Record (fails iff its date cell fails). -/
def parseRow (r : RawRow) : Option Record :=
  match parseDate r.date with
  | some d => some ⟨d, r.title, r.summary, r.link⟩
  | none => none

/-- Model of `pd.to_datetime(df[날짜])` over the whole column: the
conversion raises as soon as any single cell fails, so the result is
all-or-nothing — exactly the semantics of the try/except at lines 45-48. -/
def parseTable : List RawRow → Option Table
  | [] => some []
  | r :: rs =>
    match parseRow r, parseTable rs with
    | some rec, some t => some (rec :: t)
    | _, _ => none

/-- Single-quote character, used inside some user-facing messages. -/
def sq : String := String.mk [Char.ofNat 39]

/-- Message at line 38: the sheet has no data. -/
def msgEmpty : String := "📋 Google Sheets에 데이터가 없습니다."

/-- Message at line 42: the sheet has no 날짜 column. -/
def msgNoDateCol : String :=
  "📋 Google Sheets에 " ++ sq ++ "날짜" ++ sq ++ " 컬럼이 없습니다."

/-- Message at line 48: the date format is invalid. -/
def msgDateFmt : String := "📅 날짜 형식이 올바르지 않습니다."

/-- Message at line 53: the named sheet was not found. -/
def msgNotFound : String :=
  "📄 " ++ sq ++ "손익개선_분석결과" ++ sq ++ " 시트를 찾을 수 없습니다."

/-- Message at line 50: load succeeded. -/
def msgSuccess : String := "✅ 데이터 로드 성공"

/-- Message at line 55: a generic error occurred. -/
def msgOther (e : String) : String := "❌ 오류가 발생했습니다: " ++ e

/-- Embedding of `load_data` (dashboard.py lines 27-55).  The function
returns the `(df, message)` pair; `Except.error` models an exception
escaping the function — which happens exactly when `init_connection()`
(called at line 29, before the try-block) raises. -/
def load_data (f : FetchOutcome) : Except String (Option Table × String) :=
  match f with
  | .authError e => Except.error e
  | .spreadsheetNotFound => Except.ok (none, msgNotFound)
  | .otherError e => Except.ok (none, msgOther e)
  | .records raw =>
    if raw.rows.isEmpty then Except.ok (none, msgEmpty)
    else if !raw.hasDateCol then Except.ok (none, msgNoDateCol)
    else
      match parseTable raw.rows with
      | none => Except.ok (none, msgDateFmt)
      | some t => Except.ok (some t, msgSuccess)

/-- The memo of `@st.cache_data(ttl=60)` on `load_data`: the cached
`(df, message)` value together with the time it was stored, or nothing. -/
structure CacheState where
  entry : Option ((Option Table × String) × Nat)
deriving DecidableEq, Repr

/-- Cache TTL in seconds (line 26). -/
def cacheTTL : Nat := 60

/-- `st.cache_data.clear()` (lines 79 and 89): drop the memoized value. -/
def invalidate (_c : CacheState) : CacheState := ⟨none⟩

/-- A call of the decorated `load_data`: serve the memoized value while
its age is below the TTL, otherwise run the body and memoize whatever
it returns; if the body raises, nothing is cached and the exception
propagates.  The boolean reports whether a remote fetch was issued. -/
def cachedLoad (c : CacheState) (now : Nat) (f : FetchOutcome) :
    Except String ((Option Table × String) × CacheState × Bool) :=
  match c.entry with
  | some (v, t) =>
    if now - t < cacheTTL then Except.ok (v, c, false)
    else
      match load_data f with
      | Except.error e => Except.error e
      | Except.ok v2 => Except.ok (v2, ⟨some (v2, now)⟩, true)
  | none =>
    match load_data f with
    | Except.error e => Except.error e
    | Except.ok v2 => Except.ok (v2, ⟨some (v2, now)⟩, true)

/-- Session state of the refresh coordinator (lines 71-72). -/
structure SessionState where
  last_update : Nat
deriving DecidableEq, Repr

/-- Outcome of one pass over the refresh logic: new session state, new
cache state, and whether `st.rerun()` was triggered. -/
structure RefreshOutcome where
  session : SessionState
  cache : CacheState
  rerun : Bool
deriving DecidableEq, Repr

/-- Auto-refresh interval in seconds (line 88). -/
def autoInterval : Nat := 30

/-- Embedding of the refresh logic (dashboard.py lines 78-92): the
manual button clears the cache, stamps `last_update` and reruns; else,
if auto-refresh is on and more than 30 seconds elapsed, same; else
nothing happens. -/
def refreshStep (refresh_btn auto_refresh : Bool) (now : Nat)
    (s : SessionState) (c : CacheState) : RefreshOutcome :=
  if refresh_btn then ⟨⟨now⟩, invalidate c, true⟩
  else if auto_refresh && Nat.blt autoInterval (now - s.last_update) then
    ⟨⟨now⟩, invalidate c, true⟩
  else ⟨s, c, false⟩

/-- What the caller does with the `(df, message)` pair (lines 95-102):
`df is None` renders the error and stops the cycle, otherwise the data
is rendered with the success message. -/
inductive RenderAction where
  | renderError (msg : String)
  | renderData (t : Table) (msg : String)
deriving DecidableEq, Repr

def handleLoad (r : Option Table × String) : RenderAction :=
  match r.1 with
  | none => RenderAction.renderError r.2
  | some t => RenderAction.renderData t r.2

def lowerStr (s : String) : String := String.mk (s.toList.map Char.toLower)

def isPrefList : List Char → List Char → Bool
  | [], _ => true
  | _ :: _, [] => false
  | a :: as, b :: bs => a == b && isPrefList as bs

def hasSubList (k : List Char) : List Char → Bool
  | [] => k.isEmpty
  | c :: cs => isPrefList k (c :: cs) || hasSubList k cs

/-- The case-insensitive literal-substring predicate in which the spec
and the claims phrase the keyword filter ("contains `keyword` as a
case-insensitive substring").  This is NOT the model of line 133 — the
program compiles the keyword as a regular expression (see `rexParse`
below); the two agree exactly when the keyword has no regex
metacharacters. -/
def containsCI (s k : String) : Bool :=
  hasSubList (lowerStr k).toList (lowerStr s).toList

/-- `filtered_df = df[df[날짜] >= selected_datetime]` (line 107). -/
def dateFilter (t : Table) (d : Date) : Table :=
  t.filter (fun r => dateLe d r.date)

/-- The keyword filter as the spec describes it: literal case-insensitive
substring restriction.  Used as the spec-side comparator; the program
itself behaves like `keywordFilterR` below, which coincides with this on
metacharacter-free keywords. -/
def keywordFilter (t : Table) (k : String) : Table :=
  t.filter (fun r => containsCI r.summary k)

/-- The view filter as the spec describes it: date lower bound always,
literal keyword restriction only when the keyword is non-empty. -/
def viewFilter (t : Table) (d : Date) (k : String) : Table :=
  if k = "" then dateFilter t d else keywordFilter (dateFilter t d) k

/-- An ordinary pattern character: anything other than the Python regex
metacharacters `.` (46) `^` (94) `$` (36) `*` (42) `+` (43) `?` (63)
`\x7b` (123) `\x7d` (125) `[` (91) `]` (93) backslash (92) `|` (124)
`(` (40) `)` (41).  Ordinary characters match themselves literally. -/
def isOrdinary (c : Char) : Bool :=
  decide (c.toNat ≠ 46 ∧ c.toNat ≠ 94 ∧ c.toNat ≠ 36 ∧ c.toNat ≠ 42 ∧
    c.toNat ≠ 43 ∧ c.toNat ≠ 63 ∧ c.toNat ≠ 123 ∧ c.toNat ≠ 125 ∧
    c.toNat ≠ 91 ∧ c.toNat ≠ 93 ∧ c.toNat ≠ 92 ∧ c.toNat ≠ 124 ∧
    c.toNat ≠ 40 ∧ c.toNat ≠ 41)

/-- A single regex atom of the modelled fragment. -/
inductive RexAtom where
  | lit (c : Char)
  | dot
deriving DecidableEq, Repr

/-- An atom with an optional quantifier. -/
inductive RexPiece where
  | once (a : RexAtom)
  | star (a : RexAtom)
  | plus (a : RexAtom)
  | opt (a : RexAtom)
deriving DecidableEq, Repr

/-- A compiled pattern: a sequence of pieces, matched in order. -/
abbrev RexPattern := List RexPiece

/-- Outcome of a failed pattern compilation.  `invalid` marks patterns
that Python itself rejects with `re.error` (unbalanced or unterminated
group, a quantifier with nothing to repeat, a trailing backslash);
`unmodelled` conservatively maps every construct outside the modelled
fragment (character classes, alternation, anchors, repeat braces,
letter/digit and non-ASCII escapes, stacked quantifiers) to an error
WITHOUT claiming that Python rejects it — no theorem below asserts
program behaviour on an `unmodelled` pattern. -/
inductive RexError where
  | invalid (msg : String)
  | unmodelled (msg : String)
deriving DecidableEq, Repr

/-- Model of `re.compile` on the keyword (pandas `str.contains` compiles
the keyword as a regex, `regex=True` being the default), over a fragment
of the Python pattern language: ordinary characters, `.`, a backslash
followed by ASCII punctuation (a literal), and the quantifiers `*` `+`
`?` applied to the preceding single atom.  Within this fragment both
acceptance and matching agree with Python; everything else yields a
`RexError` as documented there.  The `afterQuant` flag records whether
the previous token was a quantifier, distinguishing a genuine
nothing-to-repeat error from a stacked (lazy/possessive) quantifier,
which recent Python accepts and the fragment does not model.  The first
argument is fuel, making the recursion structural so that concrete
patterns evaluate; see `rexParse` for why it never runs out. -/
def rexParseF : Nat → Bool → List Char → Except RexError RexPattern
  | 0, _, _ => Except.error (RexError.unmodelled ("fuel exhausted"))
  | _ + 1, _, [] => Except.ok []
  | f + 1, afterQuant, c :: cs =>
    if c.toNat = 42 ∨ c.toNat = 43 ∨ c.toNat = 63 then
      if afterQuant then Except.error (RexError.unmodelled ("stacked quantifier"))
      else Except.error (RexError.invalid ("nothing to repeat"))
    else if c.toNat = 92 then
      match cs with
      | [] => Except.error (RexError.invalid ("bad escape at end of pattern"))
      | e :: cs2 =>
        if e.isAlphanum = true ∨ 128 ≤ e.toNat then
          Except.error (RexError.unmodelled ("escape outside the modelled fragment"))
        else
          match cs2 with
          | [] => Except.ok [RexPiece.once (RexAtom.lit e)]
          | q :: cs3 =>
            if q.toNat = 42 then
              (rexParseF f true cs3).map (fun p => RexPiece.star (RexAtom.lit e) :: p)
            else if q.toNat = 43 then
              (rexParseF f true cs3).map (fun p => RexPiece.plus (RexAtom.lit e) :: p)
            else if q.toNat = 63 then
              (rexParseF f true cs3).map (fun p => RexPiece.opt (RexAtom.lit e) :: p)
            else
              (rexParseF f false cs2).map (fun p => RexPiece.once (RexAtom.lit e) :: p)
    else if c.toNat = 46 then
      match cs with
      | [] => Except.ok [RexPiece.once RexAtom.dot]
      | q :: cs2 =>
        if q.toNat = 42 then (rexParseF f true cs2).map (fun p => RexPiece.star RexAtom.dot :: p)
        else if q.toNat = 43 then (rexParseF f true cs2).map (fun p => RexPiece.plus RexAtom.dot :: p)
        else if q.toNat = 63 then (rexParseF f true cs2).map (fun p => RexPiece.opt RexAtom.dot :: p)
        else (rexParseF f false (q :: cs2)).map (fun p => RexPiece.once RexAtom.dot :: p)
    else if isOrdinary c = true then
      match cs with
      | [] => Except.ok [RexPiece.once (RexAtom.lit c)]
      | q :: cs2 =>
        if q.toNat = 42 then (rexParseF f true cs2).map (fun p => RexPiece.star (RexAtom.lit c) :: p)
        else if q.toNat = 43 then (rexParseF f true cs2).map (fun p => RexPiece.plus (RexAtom.lit c) :: p)
        else if q.toNat = 63 then (rexParseF f true cs2).map (fun p => RexPiece.opt (RexAtom.lit c) :: p)
        else (rexParseF f false (q :: cs2)).map (fun p => RexPiece.once (RexAtom.lit c) :: p)
    else if c.toNat = 40 ∨ c.toNat = 41 then
      Except.error (RexError.invalid ("unbalanced or unterminated group"))
    else Except.error (RexError.unmodelled ("construct outside the modelled fragment"))

/-- `rexParseF` with sufficient fuel: every recursive call consumes at
least one input character, so fuel exceeding the input length is never
exhausted. -/
def rexParse (afterQuant : Bool) (l : List Char) : Except RexError RexPattern :=
  rexParseF (l.length + 1) afterQuant l

/-- Whether one atom matches one character (`.` matches anything except a
newline, as in Python without `re.DOTALL`). -/
def atomMatch (a : RexAtom) (c : Char) : Bool :=
  match a with
  | RexAtom.lit l => l == c
  | RexAtom.dot => decide (c.toNat ≠ 10)

/-- Whether the pattern matches some prefix of the character list.  The
first argument is fuel making the recursion structural: every recursive
call strictly decreases pattern length plus subject length, so fuel
greater than that sum is never exhausted (see `matchTop`). -/
def matchHereF : Nat → RexPattern → List Char → Bool
  | 0, _, _ => false
  | _ + 1, [], _ => true
  | _ + 1, RexPiece.once _ :: _, [] => false
  | f + 1, RexPiece.once a :: ps, c :: cs => atomMatch a c && matchHereF f ps cs
  | f + 1, RexPiece.opt _ :: ps, [] => matchHereF f ps []
  | f + 1, RexPiece.opt a :: ps, c :: cs =>
    matchHereF f ps (c :: cs) || (atomMatch a c && matchHereF f ps cs)
  | _ + 1, RexPiece.plus _ :: _, [] => false
  | f + 1, RexPiece.plus a :: ps, c :: cs =>
    atomMatch a c && matchHereF f (RexPiece.star a :: ps) cs
  | f + 1, RexPiece.star _ :: ps, [] => matchHereF f ps []
  | f + 1, RexPiece.star a :: ps, c :: cs =>
    matchHereF f ps (c :: cs) || (atomMatch a c && matchHereF f (RexPiece.star a :: ps) cs)

/-- Pattern match against some prefix, with sufficient fuel. -/
def matchTop (p : RexPattern) (s : List Char) : Bool :=
  matchHereF (p.length + s.length + 1) p s

/-- `re.search` semantics: the pattern matches somewhere in the subject
(this is what `Series.str.contains` asks of each cell). -/
def rexSearch (p : RexPattern) : List Char → Bool
  | [] => matchTop p []
  | c :: cs => matchTop p (c :: cs) || rexSearch p cs

/-- The pattern consisting of the literal characters of a list. -/
def lits (l : List Char) : RexPattern :=
  l.map (fun c => RexPiece.once (RexAtom.lit c))

/-- The keyword-filter step of line 133,
`filtered_df[... .str.contains(keyword, case=False, na=False)]`, with
the keyword compiled as a regex: on a pattern in the modelled fragment,
keep the rows whose summary the regex matches somewhere; on a bad
pattern the raised exception aborts the step.  `case=False`
(re.IGNORECASE) is modelled by ASCII-lowercasing pattern and subject —
exact on ASCII and on caseless scripts such as Hangul (the
dashboard's data), an approximation for non-ASCII cased letters, where
Python performs full Unicode case folding. -/
def keywordFilterR (t : Table) (k : String) : Except RexError Table :=
  match rexParse false (lowerStr k).toList with
  | Except.error e => Except.error e
  | Except.ok p =>
    Except.ok (t.filter (fun r => rexSearch p (lowerStr r.summary).toList))

/-- The program's view filter (lines 105-138): the date filter always;
the keyword-filter step only when the keyword is non-empty
(`if keyword:` at line 132). -/
def viewFilterR (t : Table) (d : Date) (k : String) : Except RexError Table :=
  if k = "" then Except.ok (dateFilter t d)
  else keywordFilterR (dateFilter t d) k

/-- Left-pad the decimal representation of a number with zeros. -/
def natPad (w n : Nat) : String :=
  let s := Nat.repr n
  String.mk (List.replicate (w - s.length) (Char.ofNat 48) ++ s.toList)

/-- `strftime(%Y-%m-%d)` (line 143). -/
def formatDate (d : Date) : String :=
  natPad 4 d.year ++ "-" ++ natPad 2 d.month ++ "-" ++ natPad 2 d.day

/-- The f-string of line 143: `[date] title → summary`. -/
def formatRecord (r : Record) : String :=
  "[" ++ formatDate r.date ++ "] " ++ r.title ++ " → " ++ r.summary

/-- Python `sep.join(xs)` semantics. -/
def joinWithSep (sep : String) : List String → String
  | [] => ""
  | [s] => s
  | s :: rest => s ++ sep ++ joinWithSep sep rest

/-- The copy-out report text (lines 142-145): one formatted line per row
of `filtered_df`, joined with a blank line. -/
def summaryText (t : Table) : String :=
  joinWithSep ("\n\n") (t.map formatRecord)

/-- The outputs of one render cycle past a successful load: the table
view (`filtered_df`), the keyword view (`keyword_df`, only when a
keyword was given), and the report text. -/
structure RenderOutput where
  tableView : Table
  keywordView : Option Table
  report : String
deriving DecidableEq, Repr

/-- One render cycle past a successful load (lines 104-146), with the
steps sequenced as in the source: the keyword-filter step (lines
131-138) runs before the report is built (lines 142-146), so a regex
error raised at line 133 aborts the script run and no report is
rendered; when the cycle completes, the report is built from
`filtered_df`, not from `keyword_df`. -/
def renderCycleR (t : Table) (d : Date) (k : String) :
    Except RexError RenderOutput :=
  let fd := dateFilter t d
  if k = "" then Except.ok ⟨fd, none, summaryText fd⟩
  else
    match keywordFilterR fd k with
    | Except.error e => Except.error e
    | Except.ok kd => Except.ok ⟨fd, some kd, summaryText fd⟩

/-- Modelled from the spec (§4.4): the report format described there —
one line per Record as `[YYYY-MM-DD] title → summary`, records separated
by a blank line, in the Table order. -/
def specReport : Table → String
  | [] => ""
  | [r] => "[" ++ formatDate r.date ++ "] " ++ r.title ++ " → " ++ r.summary
  | r :: rs =>
    ("[" ++ formatDate r.date ++ "] " ++ r.title ++ " → " ++ r.summary)
      ++ "\n\n" ++ specReport rs

/-! Sample data, mirroring the scenario of spec §8. -/

def rowA : Record := ⟨⟨2025, 7, 1⟩, "A", "cost cut plan", "url1"⟩

def rowB : Record := ⟨⟨2025, 6, 30⟩, "B", "headcount", "url2"⟩

def sampleTable : Table := [rowA, rowB]

def goodRaw : RawTable :=
  ⟨true, [⟨"2025-07-01", "A", "cost cut plan", "url1"⟩,
          ⟨"2025-06-30", "B", "headcount", "url2"⟩]⟩

/-! Helper lemmas about the date-column conversion. -/

theorem parseRow_none_of_date (r : RawRow) (h : parseDate r.date = none) :
    parseRow r = none := by
  simp [parseRow, h]

theorem parseTable_eq_none_of_mem (rs : List RawRow) (r : RawRow)
    (hr : r ∈ rs) (hbad : parseRow r = none) : parseTable rs = none := by
  induction rs with
  | nil => cases hr
  | cons a as ih =>
    cases hr with
    | head => simp [parseTable, hbad]
    | tail _ h =>
      cases hpa : parseRow a <;> simp [parseTable, hpa, ih h]

theorem parseTable_sound (rs : List RawRow) (t : Table)
    (h : parseTable rs = some t) :
    t.length = rs.length ∧ ∀ r ∈ rs, parseRow r ≠ none := by
  induction rs generalizing t with
  | nil =>
    simp [parseTable] at h
    subst h
    simp
  | cons a as ih =>
    cases hpa : parseRow a with
    | none => simp [parseTable, hpa] at h
    | some rec =>
      cases hpt : parseTable as with
      | none => simp [parseTable, hpa, hpt] at h
      | some t2 =>
        simp [parseTable, hpa, hpt] at h
        obtain ⟨hl, hall⟩ := ih t2 hpt
        subst h
        refine ⟨by simp [hl], ?_⟩
        intro r hr
        cases hr with
        | head => simp [hpa]
        | tail _ hmem => exact hall r hmem

theorem load_data_records_never_raises (raw : RawTable) :
    ∃ v, load_data (FetchOutcome.records raw) = Except.ok v := by
  by_cases he : raw.rows.isEmpty
  · exact ⟨(none, msgEmpty), by simp [load_data, he]⟩
  · by_cases hc : raw.hasDateCol
    · cases hpt : parseTable raw.rows with
      | none => exact ⟨(none, msgDateFmt), by simp [load_data, he, hc, hpt]⟩
      | some t => exact ⟨(some t, msgSuccess), by simp [load_data, he, hc, hpt]⟩
    · exact ⟨(none, msgNoDateCol), by simp [load_data, he, hc]⟩

theorem load_data_success_inv (raw : RawTable) (tbl : Table) (m : String)
    (h : load_data (FetchOutcome.records raw) = Except.ok (some tbl, m)) :
    parseTable raw.rows = some tbl ∧ m = msgSuccess := by
  by_cases he : raw.rows.isEmpty
  · simp [load_data, he] at h
  · by_cases hc : raw.hasDateCol
    · cases hpt : parseTable raw.rows with
      | none => simp [load_data, he, hc, hpt] at h
      | some t =>
        simp [load_data, he, hc, hpt] at h
        exact ⟨by rw [h.1], h.2.symm⟩
    · simp [load_data, he, hc] at h

theorem viewFilter_empty_kw (t : Table) (d : Date) :
    viewFilter t d ("") = dateFilter t d := by
  simp [viewFilter]

theorem handleLoad_eq_renderError (v : Option Table × String)
    (h : v.1 = none) : handleLoad v = RenderAction.renderError v.2 := by
  obtain ⟨v1, v2⟩ := v
  simp only at h
  simp [handleLoad, h]

theorem handleLoad_eq_renderData (v : Option Table × String) (tbl : Table)
    (h : v.1 = some tbl) : handleLoad v = RenderAction.renderData tbl v.2 := by
  obtain ⟨v1, v2⟩ := v
  simp only at h
  simp [handleLoad, h]

/-! Helper lemmas about the regex model of the keyword filter. -/

theorem charOfNat_toNat (n : Nat) (h : n.isValidChar) :
    (Char.ofNat n).toNat = n := by
  rw [Char.ofNat, dif_pos h]
  rfl

theorem toLower_toNat (c : Char) :
    (Char.toLower c).toNat =
      if 65 ≤ c.toNat ∧ c.toNat ≤ 90 then c.toNat + 32 else c.toNat := by
  unfold Char.toLower
  split
  · rename_i h
    rw [if_pos (by omega : 65 ≤ c.toNat ∧ c.toNat ≤ 90)]
    exact charOfNat_toNat _ (by left; omega)
  · rename_i h
    rw [if_neg (by omega : ¬(65 ≤ c.toNat ∧ c.toNat ≤ 90))]

theorem isOrdinary_toLower (c : Char) (h : isOrdinary c = true) :
    isOrdinary (Char.toLower c) = true := by
  have ht := toLower_toNat c
  simp only [isOrdinary, decide_eq_true_eq] at h ⊢
  split at ht <;> omega

theorem lowerStr_toList (s : String) :
    (lowerStr s).toList = s.toList.map Char.toLower := rfl

theorem rexParseF_lits (l : List Char) (h : ∀ c ∈ l, isOrdinary c = true) :
    ∀ (f : Nat) (b : Bool), l.length < f →
      rexParseF f b l = Except.ok (lits l) := by
  induction l with
  | nil =>
    intro f b hf
    cases f with
    | zero => omega
    | succ f2 => rfl
  | cons c cs ih =>
    intro f b hf
    cases f with
    | zero => omega
    | succ f2 =>
      have hc := h c (List.mem_cons_self c cs)
      have hcn : c.toNat ≠ 46 ∧ c.toNat ≠ 94 ∧ c.toNat ≠ 36 ∧ c.toNat ≠ 42 ∧
          c.toNat ≠ 43 ∧ c.toNat ≠ 63 ∧ c.toNat ≠ 123 ∧ c.toNat ≠ 125 ∧
          c.toNat ≠ 91 ∧ c.toNat ≠ 93 ∧ c.toNat ≠ 92 ∧ c.toNat ≠ 124 ∧
          c.toNat ≠ 40 ∧ c.toNat ≠ 41 := by
        simpa [isOrdinary, decide_eq_true_eq] using hc
      cases cs with
      | nil =>
        simp only [rexParseF, if_neg (by omega : ¬(c.toNat = 42 ∨ c.toNat = 43 ∨ c.toNat = 63)),
          if_neg hcn.2.2.2.2.2.2.2.2.2.2.1, if_neg hcn.1, if_pos hc, lits, List.map]
      | cons q cs2 =>
        have hqmem := h q (List.mem_cons_of_mem c (List.mem_cons_self q cs2))
        have hqn : q.toNat ≠ 42 ∧ q.toNat ≠ 43 ∧ q.toNat ≠ 63 := by
          have hx := hqmem
          simp only [isOrdinary, decide_eq_true_eq] at hx
          omega
        have ihq := ih (fun x hx => h x (List.mem_cons_of_mem c hx)) f2 false
          (by simp only [List.length_cons] at hf ⊢; omega)
        simp only [rexParseF, if_neg (by omega : ¬(c.toNat = 42 ∨ c.toNat = 43 ∨ c.toNat = 63)),
          if_neg hcn.2.2.2.2.2.2.2.2.2.2.1, if_neg hcn.1, if_pos hc,
          if_neg hqn.1, if_neg hqn.2.1, if_neg hqn.2.2, ihq,
          Except.map, lits, List.map]

theorem rexParse_lits (l : List Char) (h : ∀ c ∈ l, isOrdinary c = true)
    (b : Bool) : rexParse b l = Except.ok (lits l) :=
  rexParseF_lits l h (l.length + 1) b (by omega)

theorem isPrefList_nil (k : List Char) : isPrefList k [] = k.isEmpty := by
  cases k <;> rfl

theorem matchHereF_lits (k : List Char) :
    ∀ (f : Nat) (s : List Char), k.length < f →
      matchHereF f (lits k) s = isPrefList k s := by
  induction k with
  | nil =>
    intro f s hf
    cases f with
    | zero => omega
    | succ f2 => rfl
  | cons c k2 ih =>
    intro f s hf
    cases f with
    | zero => omega
    | succ f2 =>
      cases s with
      | nil => rfl
      | cons d s2 =>
        have := ih f2 s2 (by simp at hf; omega)
        simp only [lits, List.map] at this ⊢
        simp only [matchHereF, isPrefList, atomMatch, this]

theorem rexSearch_lits (k : List Char) :
    ∀ s, rexSearch (lits k) s = hasSubList k s := by
  intro s
  induction s with
  | nil =>
    simp only [rexSearch, matchTop, hasSubList]
    rw [matchHereF_lits k _ [] (by simp [lits])]
    exact isPrefList_nil k
  | cons c cs ih =>
    simp only [rexSearch, matchTop, hasSubList]
    rw [matchHereF_lits k _ (c :: cs) (by simp [lits]; omega), ih]

theorem keywordFilterR_literal (t : Table) (k : String)
    (h : ∀ c ∈ k.toList, isOrdinary c = true) :
    keywordFilterR t k = Except.ok (keywordFilter t k) := by
  have hlow : ∀ c ∈ (lowerStr k).toList, isOrdinary c = true := by
    intro c hc
    rw [lowerStr_toList] at hc
    obtain ⟨c0, hc0, rfl⟩ := List.mem_map.mp hc
    exact isOrdinary_toLower c0 (h c0 hc0)
  have hparse := rexParse_lits (lowerStr k).toList hlow false
  simp only [keywordFilterR, hparse]
  congr 1
  apply List.filter_congr
  intro r _
  rw [rexSearch_lits]
  rfl

theorem viewFilterR_literal (t : Table) (d : Date) (k : String)
    (h : ∀ c ∈ k.toList, isOrdinary c = true) :
    viewFilterR t d k = Except.ok (viewFilter t d k) := by
  by_cases hk : k = ""
  · subst hk
    rw [viewFilter_empty_kw]
    rfl
  · simp only [viewFilterR, viewFilter, if_neg hk]
    exact keywordFilterR_literal (dateFilter t d) k h

theorem viewFilterR_empty_kw (t : Table) (d : Date) :
    viewFilterR t d ("") = Except.ok (dateFilter t d) := rfl

theorem renderCycleR_ok (t : Table) (d : Date) (k : String)
    (out : RenderOutput) (h : renderCycleR t d k = Except.ok out) :
    out.report = summaryText (dateFilter t d) := by
  by_cases hk : k = ""
  · subst hk
    have hrc : renderCycleR t d ("")
        = Except.ok ⟨dateFilter t d, none, summaryText (dateFilter t d)⟩ := rfl
    rw [hrc] at h
    injection h with h3
    rw [← h3]
  · simp only [renderCycleR, if_neg hk] at h
    cases hkf : keywordFilterR (dateFilter t d) k with
    | error e => rw [hkf] at h; cases h
    | ok kd =>
      rw [hkf] at h
      simp only [Except.ok.injEq] at h
      rw [← h]

/-- C4 as stated is false: pandas `str.contains` compiles the keyword as
a regular expression (`regex=True` is the default), so the keyword `.`
matches every row with a non-empty summary.  At the spec §8 scenario
table with minimum date 2025-01-01 and keyword `.`, row B is returned
although its summary `headcount` does not contain `.` as a
case-insensitive literal substring. -/
theorem C4_cex_metachar_keyword :
    viewFilterR sampleTable ⟨2025, 1, 1⟩ (".") = Except.ok sampleTable
    ∧ rowB ∈ sampleTable
    ∧ containsCI rowB.summary (".") = false :=
  ⟨rfl, by decide, by decide⟩

/-- C4 (amended): `filter(T, d, "")` is the date filter — every row of
it satisfies `date ≥ d` and its size equals the count of rows of T with
`date ≥ d`.  With a non-empty keyword consisting of ordinary characters
only (no regex metacharacters — the program compiles the keyword as a
regular expression), the keyword-filter step completes, equals the
literal substring filter, and every returned row satisfies `date ≥ d`
and contains the keyword as a case-insensitive substring of its summary
field. -/
theorem C4_filter_correct (t : Table) (d : Date) (k : String) :
    viewFilterR t d ("") = Except.ok (dateFilter t d)
    ∧ (∀ r ∈ dateFilter t d, dateLe d r.date = true)
    ∧ (dateFilter t d).length = t.countP (fun r => dateLe d r.date)
    ∧ (k ≠ "" → (∀ c ∈ k.toList, isOrdinary c = true) →
        viewFilterR t d k = Except.ok (viewFilter t d k)
        ∧ ∀ r ∈ viewFilter t d k,
            dateLe d r.date = true ∧ containsCI r.summary k = true) := by
  refine ⟨viewFilterR_empty_kw t d, ?_, ?_, ?_⟩
  · intro r hr
    simp only [dateFilter, List.mem_filter] at hr
    exact hr.2
  · simp only [dateFilter]
    exact (List.countP_eq_length_filter _ _).symm
  · intro hk hord
    refine ⟨viewFilterR_literal t d k hord, ?_⟩
    intro r hr
    simp only [viewFilter, if_neg hk, keywordFilter, dateFilter,
      List.mem_filter] at hr
    exact ⟨hr.1.2, hr.2⟩

/-- Witness for C4 (amended) at the spec §8 scenario table, keyword
`cost`: the regex step completes and equals the literal filter, and the
returned row A satisfies both conclusions. -/
theorem C4_filter_correct_witness :
    viewFilterR sampleTable ⟨2025, 1, 1⟩ ("cost")
      = Except.ok (viewFilter sampleTable ⟨2025, 1, 1⟩ ("cost"))
    ∧ dateLe ⟨2025, 1, 1⟩ rowA.date = true
    ∧ containsCI rowA.summary ("cost") = true :=
  have h := (C4_filter_correct sampleTable ⟨2025, 1, 1⟩ ("cost")).2.2.2
    (by decide) (by decide)
  ⟨h.1, (h.2 rowA (by decide)).1, (h.2 rowA (by decide)).2⟩

/-- C5 as stated is false: the program compiles the keyword as a regular
expression, and an invalid pattern raises `re.error` at line 133 instead
of producing a filtered subsequence.  The keyword `(` is an unterminated
group — the keyword-filter step errors and no Table results at all. -/
theorem C5_cex_invalid_regex :
    viewFilterR sampleTable ⟨2025, 1, 1⟩ ("(")
      = Except.error (RexError.invalid ("unbalanced or unterminated group")) :=
  rfl

/-- C5 (amended): for every keyword on which the keyword-filter step
completes, the produced view is a subsequence of `filter(T, d, "")` and
of T itself, preserving relative row order with nothing reordered or
duplicated; a keyword whose pattern is an invalid regex (such as `(`)
raises instead and produces no filtered view. -/
theorem C5_keyword_filter_sublist (t : Table) (d : Date) (k : String)
    (res : Table) (h : viewFilterR t d k = Except.ok res) :
    viewFilterR t d ("") = Except.ok (dateFilter t d)
    ∧ List.Sublist res (dateFilter t d)
    ∧ List.Sublist res t := by
  refine ⟨viewFilterR_empty_kw t d, ?_⟩
  by_cases hk : k = ""
  · subst hk
    rw [viewFilterR_empty_kw] at h
    simp only [Except.ok.injEq] at h
    subst h
    exact ⟨List.Sublist.refl _, List.filter_sublist t⟩
  · simp only [viewFilterR, if_neg hk, keywordFilterR] at h
    cases hp : rexParse false (lowerStr k).toList with
    | error e => rw [hp] at h; cases h
    | ok p =>
      rw [hp] at h
      simp only [Except.ok.injEq] at h
      subst h
      exact ⟨List.filter_sublist _,
        (List.filter_sublist _).trans (List.filter_sublist t)⟩

/-- Witness for C5 (amended): with keyword `cost` on the scenario table
the step completes with just row A, a subsequence of the date-filtered
table and of the table itself. -/
theorem C5_keyword_filter_sublist_witness :
    List.Sublist [rowA] (dateFilter sampleTable ⟨2025, 1, 1⟩)
    ∧ List.Sublist [rowA] sampleTable :=
  (C5_keyword_filter_sublist sampleTable ⟨2025, 1, 1⟩ ("cost") [rowA] rfl).2

/-- C8: with auto-refresh off and the manual button not pressed, one pass
of the refresh logic leaves the session state (last_update) and the cache
untouched and triggers no rerun, for every current time. -/
theorem C8_no_refresh_when_disabled (now : Nat) (s : SessionState)
    (c : CacheState) :
    refreshStep false false now s c = ⟨s, c, false⟩ := by
  simp [refreshStep]

/-- C9: the report text produced from a table equals, for every table,
the spec-described format — one line `[YYYY-MM-DD] title → summary` per
Record, consecutive records separated by a blank line, in table order,
fields untruncated; as a Lean function it is pure and deterministic. -/
theorem C9_report_matches_spec_format (t : Table) :
    summaryText t = specReport t := by
  induction t with
  | nil => rfl
  | cons r rs ih =>
    cases rs with
    | nil => rfl
    | cons r2 rs2 =>
      have h1 : summaryText (r :: r2 :: rs2)
          = formatRecord r ++ ("\n\n") ++ summaryText (r2 :: rs2) := rfl
      rw [h1, ih]
      rfl

/-- C10 as stated is false: the keyword filter at line 133 runs before
the report is built at lines 142-146, and pandas compiles the keyword as
a regular expression, so entering the invalid-regex keyword `(` raises
at line 133, aborts the render cycle, and no report text is produced —
while the same cycle with the keyword cleared renders the report.
Entering a keyword can therefore change (eliminate) the report. -/
theorem C10_cex_invalid_regex_no_report :
    renderCycleR sampleTable ⟨2025, 1, 1⟩ ("(")
      = Except.error (RexError.invalid ("unbalanced or unterminated group"))
    ∧ renderCycleR sampleTable ⟨2025, 1, 1⟩ ("")
      = Except.ok ⟨sampleTable, none, summaryText sampleTable⟩ :=
  ⟨rfl, rfl⟩

/-- C10 (amended): for every pair of keywords on which the render cycle
completes, the report text is identical and equals the formatting of the
date-filtered rows only — so rows excluded by the keyword filter still
appear in the report; a keyword whose pattern is an invalid regex aborts
the cycle at the keyword-filter step before any report is rendered. -/
theorem C10_report_ignores_completing_keyword (t : Table) (d : Date)
    (k k2 : String) (out out2 : RenderOutput)
    (h : renderCycleR t d k = Except.ok out)
    (h2 : renderCycleR t d k2 = Except.ok out2) :
    out.report = out2.report
    ∧ out.report = summaryText (dateFilter t d) := by
  have e1 := renderCycleR_ok t d k out h
  have e2 := renderCycleR_ok t d k2 out2 h2
  rw [e1, e2]
  exact ⟨rfl, rfl⟩

/-- Witness for C10 (amended): on the scenario table, the cycle with
keyword `cost` and the cycle with the keyword cleared produce the same
report, the formatting of the date-filtered rows. -/
theorem C10_report_ignores_completing_keyword_witness :
    (⟨sampleTable, some [rowA], summaryText sampleTable⟩ : RenderOutput).report
      = (⟨sampleTable, none, summaryText sampleTable⟩ : RenderOutput).report
    ∧ (⟨sampleTable, some [rowA], summaryText sampleTable⟩ :
        RenderOutput).report = summaryText (dateFilter sampleTable ⟨2025, 1, 1⟩) :=
  C10_report_ignores_completing_keyword sampleTable ⟨2025, 1, 1⟩
    ("cost") ("") ⟨sampleTable, some [rowA], summaryText sampleTable⟩
    ⟨sampleTable, none, summaryText sampleTable⟩ rfl rfl

/-- C1 as stated is false: a failing load IS cached.  Concretely, an
empty source table at time 0 makes `load_data` return the typed failure
`(none, msgEmpty)`, the decorated call stores that failure tuple in the
cache, and a second call 30 seconds later — within the 60-second TTL,
with the remote source now holding good data — re-serves the stored
failure and issues no fresh fetch (the final `false`). -/
theorem C1_cex_failure_recached :
    load_data (FetchOutcome.records ⟨true, []⟩) = Except.ok (none, msgEmpty)
    ∧ cachedLoad ⟨none⟩ 0 (FetchOutcome.records ⟨true, []⟩)
        = Except.ok ((none, msgEmpty), ⟨some ((none, msgEmpty), 0)⟩, true)
    ∧ cachedLoad ⟨some ((none, msgEmpty), 0)⟩ 30 (FetchOutcome.records goodRaw)
        = Except.ok ((none, msgEmpty), ⟨some ((none, msgEmpty), 0)⟩, false) :=
  ⟨rfl, rfl, rfl⟩

/-- C1 (amended): for every failing load that returns a typed failure
(empty table, missing date column, unparseable dates, table not found),
the failure tuple `(none, message)` IS cached exactly like a success: a
subsequent call within the 60-second TTL window re-serves the stored
failure without a fresh fetch.  The failure is still surfaced to the
caller as a typed outcome, not as an exception. -/
theorem C1_failure_cached_within_ttl (f f2 : FetchOutcome) (m : String)
    (t t2 : Nat) (h : load_data f = Except.ok (none, m))
    (hlt : t2 - t < cacheTTL) :
    cachedLoad ⟨none⟩ t f
      = Except.ok ((none, m), ⟨some ((none, m), t)⟩, true)
    ∧ cachedLoad ⟨some ((none, m), t)⟩ t2 f2
      = Except.ok ((none, m), ⟨some ((none, m), t)⟩, false) := by
  constructor
  · simp [cachedLoad, h]
  · simp [cachedLoad, hlt]

/-- Witness for C1 (amended): a not-found failure cached at time 0 is
re-served at time 59 with no fresh fetch. -/
theorem C1_failure_cached_within_ttl_witness :
    cachedLoad ⟨none⟩ 0 FetchOutcome.spreadsheetNotFound
      = Except.ok ((none, msgNotFound), ⟨some ((none, msgNotFound), 0)⟩, true)
    ∧ cachedLoad ⟨some ((none, msgNotFound), 0)⟩ 59 (FetchOutcome.records goodRaw)
      = Except.ok ((none, msgNotFound), ⟨some ((none, msgNotFound), 0)⟩, false) :=
  C1_failure_cached_within_ttl FetchOutcome.spreadsheetNotFound
    (FetchOutcome.records goodRaw) msgNotFound 0 59 rfl (by decide)

/-- C2: a successful load on a cold cache issues a fetch and memoizes the
result with its timestamp; a second call less than the TTL later serves
the same memoized table with no fetch (so the pair issues exactly one
fetch); a call at or past TTL expiry re-fetches and stores the new result
with the new timestamp, and so does any call after `invalidate()`. -/
theorem C2_cache_ttl_behavior (t1 t2 : Nat) (f1 f2 : FetchOutcome)
    (tbl : Table) (m : String)
    (h1 : load_data f1 = Except.ok (some tbl, m))
    (hlt : t2 - t1 < cacheTTL) :
    cachedLoad ⟨none⟩ t1 f1
      = Except.ok ((some tbl, m), ⟨some ((some tbl, m), t1)⟩, true)
    ∧ cachedLoad ⟨some ((some tbl, m), t1)⟩ t2 f2
      = Except.ok ((some tbl, m), ⟨some ((some tbl, m), t1)⟩, false)
    ∧ (∀ (t3 : Nat) (f3 : FetchOutcome) (v3 : Option Table × String),
        cacheTTL ≤ t3 - t1 → load_data f3 = Except.ok v3 →
        cachedLoad ⟨some ((some tbl, m), t1)⟩ t3 f3
          = Except.ok (v3, ⟨some (v3, t3)⟩, true))
    ∧ (∀ (c : CacheState) (t3 : Nat) (f3 : FetchOutcome)
        (v3 : Option Table × String), load_data f3 = Except.ok v3 →
        cachedLoad (invalidate c) t3 f3
          = Except.ok (v3, ⟨some (v3, t3)⟩, true)) := by
  refine ⟨by simp [cachedLoad, h1], by simp [cachedLoad, hlt], ?_, ?_⟩
  · intro t3 f3 v3 hge h3
    simp [cachedLoad, Nat.not_lt.mpr hge, h3]
  · intro c t3 f3 v3 h3
    simp [cachedLoad, invalidate, h3]

/-- Witness for C2: a successful load of the sample sheet at time 0 is
fetched once and the call at time 30 serves the memoized table without
fetching. -/
theorem C2_cache_ttl_behavior_witness :
    cachedLoad ⟨none⟩ 0 (FetchOutcome.records goodRaw)
      = Except.ok ((some sampleTable, msgSuccess),
          ⟨some ((some sampleTable, msgSuccess), 0)⟩, true)
    ∧ cachedLoad ⟨some ((some sampleTable, msgSuccess), 0)⟩ 30
        (FetchOutcome.records goodRaw)
      = Except.ok ((some sampleTable, msgSuccess),
          ⟨some ((some sampleTable, msgSuccess), 0)⟩, false) :=
  ⟨(C2_cache_ttl_behavior 0 30 (FetchOutcome.records goodRaw)
      (FetchOutcome.records goodRaw) sampleTable msgSuccess rfl (by decide)).1,
   (C2_cache_ttl_behavior 0 30 (FetchOutcome.records goodRaw)
      (FetchOutcome.records goodRaw) sampleTable msgSuccess rfl (by decide)).2.1⟩

/-- C3 as stated is false: an authentication failure is NOT returned as a
typed result.  `init_connection()` is called at line 29, before the
try-block starts at line 31, so a credential exception escapes
`load_data` and crosses the render boundary uncaught. -/
theorem C3_cex_auth_exception_escapes :
    load_data (FetchOutcome.authError ("invalid_grant"))
      = Except.error ("invalid_grant") := rfl

/-- C3 (amended): every failure arising inside the try-block of the fetch
path (sheet not found, any other remote exception, empty data, missing
date column, unparseable dates) is returned as a typed `(df, message)`
result, never an exception; on a failure result the caller renders the
message and stops the render cycle, and on a success it renders the data.
Only an authentication/credential failure, raised by `init_connection()`
before the try-block, escapes as an exception. -/
theorem C3_nonauth_failures_typed (f : FetchOutcome)
    (h : ∀ e, f ≠ FetchOutcome.authError e) :
    (∃ v, load_data f = Except.ok v)
    ∧ ∀ v, load_data f = Except.ok v →
        (v.1 = none → handleLoad v = RenderAction.renderError v.2)
        ∧ ∀ tbl, v.1 = some tbl → handleLoad v = RenderAction.renderData tbl v.2 := by
  have hok : ∃ v, load_data f = Except.ok v := by
    cases f with
    | authError e => exact absurd rfl (h e)
    | spreadsheetNotFound => exact ⟨(none, msgNotFound), rfl⟩
    | otherError e => exact ⟨(none, msgOther e), rfl⟩
    | records raw => exact load_data_records_never_raises raw
  refine ⟨hok, ?_⟩
  intro v _
  exact ⟨handleLoad_eq_renderError v, handleLoad_eq_renderData v⟩

/-- Witness for C3 (amended): the not-found failure is a typed result and
the caller renders its message and halts the cycle. -/
theorem C3_nonauth_failures_typed_witness :
    handleLoad (none, msgNotFound) = RenderAction.renderError msgNotFound :=
  (((C3_nonauth_failures_typed FetchOutcome.spreadsheetNotFound
      (fun _ h => FetchOutcome.noConfusion h)).2
    (none, msgNotFound) rfl).1) rfl

/-- C6: the four failure conditions yield four distinguishable typed
outcomes with pairwise distinct user-facing messages — an empty source
table yields the data-empty failure (not an empty successful Table), a
table missing the date column yields the schema failure, a table with an
unparseable date value yields the date-parse failure, and a missing sheet
yields the not-found failure. -/
theorem C6_distinct_failure_outcomes :
    (∀ hasCol : Bool,
      load_data (FetchOutcome.records ⟨hasCol, []⟩) = Except.ok (none, msgEmpty))
    ∧ (∀ rows : List RawRow, rows ≠ [] →
        load_data (FetchOutcome.records ⟨false, rows⟩)
          = Except.ok (none, msgNoDateCol))
    ∧ (∀ (rows : List RawRow) (r : RawRow), r ∈ rows →
        parseDate r.date = none →
        load_data (FetchOutcome.records ⟨true, rows⟩)
          = Except.ok (none, msgDateFmt))
    ∧ load_data FetchOutcome.spreadsheetNotFound = Except.ok (none, msgNotFound)
    ∧ (msgEmpty ≠ msgNoDateCol ∧ msgEmpty ≠ msgDateFmt
        ∧ msgEmpty ≠ msgNotFound ∧ msgNoDateCol ≠ msgDateFmt
        ∧ msgNoDateCol ≠ msgNotFound ∧ msgDateFmt ≠ msgNotFound) := by
  refine ⟨?_, ?_, ?_, rfl, by decide, by decide, by decide, by decide,
    by decide, by decide⟩
  · intro hasCol
    simp [load_data]
  · intro rows hne
    have he : rows.isEmpty = false := by
      cases rows with
      | nil => exact absurd rfl hne
      | cons a as => rfl
    simp [load_data, he]
  · intro rows r hr hbad
    have he : rows.isEmpty = false := by
      cases rows with
      | nil => cases hr
      | cons a as => rfl
    have hpt : parseTable rows = none :=
      parseTable_eq_none_of_mem rows r hr (parseRow_none_of_date r hbad)
    simp [load_data, he, hpt]

/-- Witness for C6: the missing-column and unparseable-date conditions at
concrete one-row tables produce their two distinct messages. -/
theorem C6_distinct_failure_outcomes_witness :
    load_data (FetchOutcome.records ⟨false, [⟨"x", "t", "s", "l"⟩]⟩)
      = Except.ok (none, msgNoDateCol)
    ∧ load_data (FetchOutcome.records ⟨true, [⟨"not a date", "t", "s", "l"⟩]⟩)
      = Except.ok (none, msgDateFmt) :=
  ⟨C6_distinct_failure_outcomes.2.1 [⟨"x", "t", "s", "l"⟩] (by decide),
   C6_distinct_failure_outcomes.2.2.1 [⟨"not a date", "t", "s", "l"⟩]
     ⟨"not a date", "t", "s", "l"⟩ (by decide) (by decide)⟩

/-- C7: if any row of a fetched table (nonempty, with the date column)
has an unparseable date value, the whole load is rejected with the
date-parse failure and no Table is returned; and conversely every
successful load returns a Table with exactly one Record per source row,
every one of whose dates parsed — no row is silently skipped and no
partially-parsed Table is ever returned. -/
theorem C7_date_parse_fail_fast (raw : RawTable) (r : RawRow)
    (hcol : raw.hasDateCol = true) (hr : r ∈ raw.rows)
    (hbad : parseDate r.date = none) :
    load_data (FetchOutcome.records raw) = Except.ok (none, msgDateFmt)
    ∧ ∀ (raw2 : RawTable) (tbl : Table) (m : String),
        load_data (FetchOutcome.records raw2) = Except.ok (some tbl, m) →
        tbl.length = raw2.rows.length ∧ ∀ rr ∈ raw2.rows, parseRow rr ≠ none := by
  constructor
  · have he : raw.rows.isEmpty = false := by
      cases hrows : raw.rows with
      | nil => rw [hrows] at hr; cases hr
      | cons a as => rfl
    have hpt : parseTable raw.rows = none :=
      parseTable_eq_none_of_mem raw.rows r hr (parseRow_none_of_date r hbad)
    simp [load_data, he, hcol, hpt]
  · intro raw2 tbl m h
    obtain ⟨hpt, _⟩ := load_data_success_inv raw2 tbl m h
    exact parseTable_sound raw2.rows tbl hpt

/-- Witness for C7: a two-row table whose second date is malformed is
rejected whole with the date-parse message. -/
theorem C7_date_parse_fail_fast_witness :
    load_data (FetchOutcome.records
        ⟨true, [⟨"2025-07-01", "A", "s", "u"⟩, ⟨"07/01/2025", "B", "s2", "u2"⟩]⟩)
      = Except.ok (none, msgDateFmt) :=
  (C7_date_parse_fail_fast
      ⟨true, [⟨"2025-07-01", "A", "s", "u"⟩, ⟨"07/01/2025", "B", "s2", "u2"⟩]⟩
      ⟨"07/01/2025", "B", "s2", "u2"⟩ rfl (by decide) (by decide)).1

end SkDashboard
